import Mathlib

/-!
Verification of `src/solutions/sentinel1_image.py` from the eo-learn-workshop
repository.

The script is a 13-line straight-line Python module:

  eopatch = EOPatch.load('../data/sentinel1_sample', lazy_loading=True)
  reactiv = ReactivTask((FeatureType.DATA_TIMELESS, 'speckle_variability'),
                        data_feature=(FeatureType.DATA, 'IW_VV'),
                        mask_feature=(FeatureType.MASK, 'IS_DATA'))
  eopatch = reactiv.execute(eopatch)
  plot_results(eopatch[(FeatureType.DATA_TIMELESS, 'speckle_variability')])

All four operations it performs (loading, task construction, task execution,
plotting) are delegated to names supplied by the enclosing environment; the
script defines nothing itself.  We embed the script as a total function over
an abstract environment `Env` providing those four operations as fallible
(`Except`) functions, and record the sequence of external calls the script
makes as a trace.  The container (`EOPatch`) is embedded concretely as an
association list from (FeatureType, name) keys to layers, so that the
subscript on the last line and frame properties can be stated.  The
`ReactivTask` itself is not under `src/`; where a claim needs its semantics
we model it from the spec (see `ReactivTask.executeModel`).
-/

set_option autoImplicit false

namespace Sentinel1

/-- The layer categories of the external container (the relevant members of
eo-learn's `FeatureType` enumeration). -/
inductive FeatureType where
  | DATA
  | MASK
  | SCALAR
  | LABEL
  | VECTOR
  | DATA_TIMELESS
  | MASK_TIMELESS
  | SCALAR_TIMELESS
  | LABEL_TIMELESS
  | VECTOR_TIMELESS
  | META_INFO
  | BBOX
  | TIMESTAMP
  deriving DecidableEq

/-- A container key: a (category, name) pair. -/
abbrev FeatureKey : Type := FeatureType × String

/-- The in-memory container (an `EOPatch`): labeled raster layers grouped by
category, embedded as an association list from keys to layers of type `γ`. -/
abbrev Patch (γ : Type) : Type := List (FeatureKey × γ)

/-- Lookup of a key in the container (first matching entry). -/
def Patch.get {γ : Type} (p : Patch γ) (k : FeatureKey) : Option γ :=
  match p with
  | [] => none
  | (k2, v) :: rest => if k2 = k then some v else Patch.get rest k

/-- Overwriting insertion of a layer under a key. -/
def Patch.set {γ : Type} (p : Patch γ) (k : FeatureKey) (v : γ) : Patch γ :=
  match p with
  | [] => [(k, v)]
  | (k2, w) :: rest => if k2 = k then (k, v) :: rest else (k2, w) :: Patch.set rest k v

/-- Errors an external call can raise (Python exceptions, embedded as values). -/
inductive PyError where
  | nameError (name : String)
  | keyError (key : FeatureKey)
  | ioError (msg : String)
  | libError (msg : String)
  deriving DecidableEq

/-- The container subscript `eopatch[key]` of line 13: a missing key raises
`KeyError`. -/
def Patch.getItem {γ : Type} (p : Patch γ) (k : FeatureKey) : Except PyError γ :=
  match Patch.get p k with
  | some v => .ok v
  | none => .error (.keyError k)

/-- The task object of line 5: it records the one output-key descriptor and the
two named input-key descriptors passed to the constructor. -/
structure ReactivTask where
  output_feature : FeatureKey
  data_feature : FeatureKey
  mask_feature : FeatureKey
  deriving DecidableEq

/-- Modelled from the spec: the `ReactivTask.execute` method is defined in the
workshop's notebooks, not under `src/`.  Per the spec, a task "reads named
input layers and writes a named output layer"; `f` abstracts the
speckle-variability computation on the two input layers.  A missing input
layer raises `KeyError`. -/
def ReactivTask.executeModel {γ : Type} (f : γ → γ → γ) (t : ReactivTask)
    (p : Patch γ) : Except PyError (Patch γ) :=
  match Patch.get p t.data_feature with
  | none => .error (.keyError t.data_feature)
  | some d =>
    match Patch.get p t.mask_feature with
    | none => .error (.keyError t.mask_feature)
    | some m => .ok (Patch.set p t.output_feature (f d m))

/-- One external call made by the script, with its arguments.  `save` is the
persistence operation of the external library; the script never emits it. -/
inductive Call (γ : Type) where
  | load (path : String) (lazy : Bool)
  | construct (output datafeat maskfeat : FeatureKey)
  | execute (task : ReactivTask) (patch : Patch γ)
  | plot (layer : γ)
  | save (patch : Patch γ) (path : String)
  deriving DecidableEq

/-- The operation kind of a call, forgetting its arguments. -/
inductive CallKind where
  | loadK
  | constructK
  | executeK
  | plotK
  | saveK
  deriving DecidableEq

/-- Forget the arguments of a call. -/
def Call.kind {γ : Type} : Call γ → CallKind
  | .load _ _ => .loadK
  | .construct _ _ _ => .constructK
  | .execute _ _ => .executeK
  | .plot _ => .plotK
  | .save _ _ => .saveK

/-- The external library's API surface, as the script uses it: a load
function, the task constructor, the task's execute method and the plotting
helper, each fallible. -/
structure Env (γ π : Type) where
  load : String → Bool → Except PyError (Patch γ)
  mkReactivTask : FeatureKey → FeatureKey → FeatureKey → Except PyError ReactivTask
  execute : ReactivTask → Patch γ → Except PyError (Patch γ)
  plot_results : γ → Except PyError π

/-- The directory path passed to the loader on line 2. -/
def sample_path : String := "../data/sentinel1_sample"

/-- The output-key descriptor of line 5 (and, character for character, the
subscript key of line 13). -/
def output_feature : FeatureKey := (FeatureType.DATA_TIMELESS, "speckle_variability")

/-- The `data_feature` input-key descriptor of line 6. -/
def data_feature : FeatureKey := (FeatureType.DATA, "IW_VV")

/-- The `mask_feature` input-key descriptor of line 7. -/
def mask_feature : FeatureKey := (FeatureType.MASK, "IS_DATA")

/-- The script, line by line: load the sample eopatch, construct the task,
execute it on the container, look the output layer up and plot it.  Returns
the script's overall result together with the trace of external calls made.
A failing call ends the run with that error and no later call. -/
def run {γ π : Type} (env : Env γ π) : Except PyError π × List (Call γ) :=
  match env.load sample_path true with
  | .error e => (.error e, [Call.load sample_path true])
  | .ok eopatch =>
    match env.mkReactivTask output_feature data_feature mask_feature with
    | .error e =>
        (.error e, [Call.load sample_path true,
                    Call.construct output_feature data_feature mask_feature])
    | .ok reactiv =>
      match env.execute reactiv eopatch with
      | .error e =>
          (.error e, [Call.load sample_path true,
                      Call.construct output_feature data_feature mask_feature,
                      Call.execute reactiv eopatch])
      | .ok eopatch2 =>
        match Patch.getItem eopatch2 output_feature with
        | .error e =>
            (.error e, [Call.load sample_path true,
                        Call.construct output_feature data_feature mask_feature,
                        Call.execute reactiv eopatch])
        | .ok layer =>
            (env.plot_results layer,
             [Call.load sample_path true,
              Call.construct output_feature data_feature mask_feature,
              Call.execute reactiv eopatch,
              Call.plot layer])

/-- The environment as Python name resolution sees it: each of the four free
names the script references (`EOPatch`, `FeatureType`, `ReactivTask`,
`plot_results`) may be unbound; `execute` is a method on the task object, not
a free name. -/
structure RawEnv (γ π : Type) where
  eopatchBinding : Option (String → Bool → Except PyError (Patch γ))
  featureTypeBound : Bool
  reactivTaskBinding : Option (FeatureKey → FeatureKey → FeatureKey → Except PyError ReactivTask)
  executeMethod : ReactivTask → Patch γ → Except PyError (Patch γ)
  plotResultsBinding : Option (γ → Except PyError π)

/-- The script under Python's lazy, per-reference name resolution: an unbound
name raises `NameError` at its first reference.  On each line the callee is
resolved before its arguments are evaluated, so on line 5 `ReactivTask` is
checked before `FeatureType`, and on line 13 `plot_results` is checked before
the subscript is evaluated. -/
def runRaw {γ π : Type} (renv : RawEnv γ π) : Except PyError π × List (Call γ) :=
  match renv.eopatchBinding with
  | none => (.error (.nameError "EOPatch"), [])
  | some loadFn =>
    match loadFn sample_path true with
    | .error e => (.error e, [Call.load sample_path true])
    | .ok eopatch =>
      match renv.reactivTaskBinding with
      | none => (.error (.nameError "ReactivTask"), [Call.load sample_path true])
      | some ctor =>
        if renv.featureTypeBound = false then
          (.error (.nameError "FeatureType"), [Call.load sample_path true])
        else
          match ctor output_feature data_feature mask_feature with
          | .error e =>
              (.error e, [Call.load sample_path true,
                          Call.construct output_feature data_feature mask_feature])
          | .ok reactiv =>
            match renv.executeMethod reactiv eopatch with
            | .error e =>
                (.error e, [Call.load sample_path true,
                            Call.construct output_feature data_feature mask_feature,
                            Call.execute reactiv eopatch])
            | .ok eopatch2 =>
              match renv.plotResultsBinding with
              | none =>
                  (.error (.nameError "plot_results"),
                   [Call.load sample_path true,
                    Call.construct output_feature data_feature mask_feature,
                    Call.execute reactiv eopatch])
              | some plotFn =>
                match Patch.getItem eopatch2 output_feature with
                | .error e =>
                    (.error e, [Call.load sample_path true,
                                Call.construct output_feature data_feature mask_feature,
                                Call.execute reactiv eopatch])
                | .ok layer =>
                    (plotFn layer,
                     [Call.load sample_path true,
                      Call.construct output_feature data_feature mask_feature,
                      Call.execute reactiv eopatch,
                      Call.plot layer])

/-- The environment whose task constructor and execute method follow the
spec's contract for `ReactivTask` (construction records the three key
descriptors; execution reads the two input layers and writes the output
layer computed by `f`). -/
def modelEnv {γ π : Type} (f : γ → γ → γ)
    (loadFn : String → Bool → Except PyError (Patch γ))
    (plotFn : γ → Except PyError π) : Env γ π :=
  ⟨loadFn, fun o d m => .ok ⟨o, d, m⟩, ReactivTask.executeModel f, plotFn⟩

/-- A concrete sample container for witnesses: layers are natural numbers. -/
def samplePatch : Patch Nat :=
  [(data_feature, 3), (mask_feature, 1)]

/-- A concrete fully-working environment for witnesses. -/
def envC : Env Nat Unit :=
  modelEnv (fun d m => d + m) (fun _ _ => .ok samplePatch) (fun _ => .ok ())

example : run envC = (.ok (), [Call.load sample_path true,
  Call.construct output_feature data_feature mask_feature,
  Call.execute ⟨output_feature, data_feature, mask_feature⟩ samplePatch,
  Call.plot 4]) := rfl

/-- The task object the script constructs. -/
def taskC : ReactivTask := ⟨output_feature, data_feature, mask_feature⟩

/-- The container `envC`'s execute call returns: the sample container with the
output layer added. -/
def execPatchC : Patch Nat :=
  [(data_feature, 3), (mask_feature, 1), (output_feature, 4)]

example : envC.execute taskC samplePatch = .ok execPatchC := rfl

/-- Looking a key up after an overwriting insertion: the inserted key maps to
the new layer and every other key is unchanged. -/
theorem Patch.get_set {γ : Type} (p : Patch γ) (k kq : FeatureKey) (v : γ) :
    Patch.get (Patch.set p k v) kq = if k = kq then some v else Patch.get p kq := by
  induction p with
  | nil =>
      simp only [Patch.set, Patch.get]
  | cons hd tl ih =>
      obtain ⟨a, w⟩ := hd
      simp only [Patch.set, Patch.get]
      by_cases hak : a = k
      · subst hak
        simp only [if_pos rfl, Patch.get]
        by_cases hkq : a = kq
        · simp [hkq]
        · simp [hkq]
      · simp only [if_neg hak, Patch.get, ih]
        by_cases haq : a = kq
        · subst haq
          have : ¬ k = a := fun h => hak h.symm
          simp [this]
        · simp [haq]

/-- Inversion for the modelled task execution: success means both input layers
were present and the result is the input container with the output layer
written. -/
theorem executeModel_ok {γ : Type} (f : γ → γ → γ) (t : ReactivTask)
    (p p1 : Patch γ) (h : ReactivTask.executeModel f t p = .ok p1) :
    ∃ d m, Patch.get p t.data_feature = some d ∧
      Patch.get p t.mask_feature = some m ∧
      p1 = Patch.set p t.output_feature (f d m) := by
  unfold ReactivTask.executeModel at h
  cases hd : Patch.get p t.data_feature with
  | none => rw [hd] at h; cases h
  | some d =>
      rw [hd] at h
      cases hm : Patch.get p t.mask_feature with
      | none => rw [hm] at h; cases h
      | some m =>
          rw [hm] at h
          exact ⟨d, m, rfl, rfl, (Except.ok.injEq _ _).mp h.symm⟩

/-- The modelled task execution writes its configured output key: the returned
container has a layer under that key. -/
theorem executeModel_output {γ : Type} (f : γ → γ → γ) (t : ReactivTask)
    (p p1 : Patch γ) (h : ReactivTask.executeModel f t p = .ok p1) :
    (Patch.get p1 t.output_feature).isSome = true := by
  obtain ⟨d, m, _, _, hp1⟩ := executeModel_ok f t p p1 h
  subst hp1
  simp [Patch.get_set]

/-- Characterization of a fully successful run: the trace is the four calls in
order and the result is the plot call's result on the output layer of the
container returned by execute. -/
theorem run_success {γ π : Type} (env : Env γ π) (p0 : Patch γ) (t : ReactivTask)
    (p1 : Patch γ) (layer : γ)
    (hl : env.load sample_path true = .ok p0)
    (hm : env.mkReactivTask output_feature data_feature mask_feature = .ok t)
    (hx : env.execute t p0 = .ok p1)
    (hg : Patch.get p1 output_feature = some layer) :
    run env = (env.plot_results layer,
      [Call.load sample_path true,
       Call.construct output_feature data_feature mask_feature,
       Call.execute t p0, Call.plot layer]) := by
  simp [run, hl, hm, hx, Patch.getItem, hg]

/-- The trace of any run has one of four shapes, each a prefix of the full
load-construct-execute-plot sequence. -/
theorem run_trace_cases {γ π : Type} (env : Env γ π) :
    (run env).2 = [Call.load sample_path true] ∨
    (run env).2 = [Call.load sample_path true,
      Call.construct output_feature data_feature mask_feature] ∨
    (∃ t p, (run env).2 = [Call.load sample_path true,
      Call.construct output_feature data_feature mask_feature, Call.execute t p]) ∨
    (∃ t p layer, (run env).2 = [Call.load sample_path true,
      Call.construct output_feature data_feature mask_feature, Call.execute t p,
      Call.plot layer]) := by
  cases hl : env.load sample_path true with
  | error e => left; simp [run, hl]
  | ok p0 =>
    cases hm : env.mkReactivTask output_feature data_feature mask_feature with
    | error e => right; left; simp [run, hl, hm]
    | ok t =>
      cases hx : env.execute t p0 with
      | error e => right; right; left; exact ⟨t, p0, by simp [run, hl, hm, hx]⟩
      | ok p1 =>
        cases hg : Patch.getItem p1 output_feature with
        | error e =>
            right; right; left; exact ⟨t, p0, by simp [run, hl, hm, hx, hg]⟩
        | ok layer =>
            right; right; right
            exact ⟨t, p0, layer, by simp [run, hl, hm, hx, hg]⟩

/-- No run ever makes a save call: the script does not persist the container. -/
theorem run_no_save {γ π : Type} (env : Env γ π) (q : Patch γ) (s : String) :
    Call.save q s ∉ (run env).2 := by
  rcases run_trace_cases env with h | h | ⟨t, p, h⟩ | ⟨t, p, layer, h⟩ <;>
    rw [h] <;> simp

/-- A concrete environment whose load call fails. -/
def envLoadFail : Env Nat Unit :=
  modelEnv (fun d m => d + m) (fun _ _ => .error (.ioError "missing path"))
    (fun _ => .ok ())

/-- A concrete environment whose task constructor fails. -/
def envMkFail : Env Nat Unit :=
  ⟨fun _ _ => .ok samplePatch, fun _ _ _ => .error (.libError "bad task"),
   ReactivTask.executeModel (fun d m => d + m), fun _ => .ok ()⟩

/-- A concrete environment whose execute call fails. -/
def envExecFail : Env Nat Unit :=
  ⟨fun _ _ => .ok samplePatch, fun o d m => .ok ⟨o, d, m⟩,
   fun _ _ => .error (.libError "exec failed"), fun _ => .ok ()⟩

/-- A concrete environment whose execute call returns the container unchanged,
so the output layer is missing at the subscript on line 13. -/
def envKeyFail : Env Nat Unit :=
  ⟨fun _ _ => .ok samplePatch, fun o d m => .ok ⟨o, d, m⟩,
   fun _ p => .ok p, fun _ => .ok ()⟩

/-- A concrete environment whose plot call fails. -/
def envPlotFail : Env Nat Unit :=
  modelEnv (fun d m => d + m) (fun _ _ => .ok samplePatch)
    (fun _ => .error (.libError "plot failed"))

/-- C1: the container passed to the plotting step is exactly the container
returned by the task's execute method (not the originally loaded `p0`), and
the layer plotted is the layer of that container under the key
(DATA_TIMELESS, "speckle_variability") — the same `output_feature` key the
task was configured to write. -/
theorem C1_plot_uses_executed_container {γ π : Type} (env : Env γ π)
    (p0 p1 : Patch γ) (t : ReactivTask) (layer : γ)
    (hl : env.load sample_path true = .ok p0)
    (hm : env.mkReactivTask output_feature data_feature mask_feature = .ok t)
    (hx : env.execute t p0 = .ok p1)
    (hg : Patch.getItem p1 output_feature = .ok layer) :
    run env = (env.plot_results layer,
      [Call.load sample_path true,
       Call.construct output_feature data_feature mask_feature,
       Call.execute t p0, Call.plot layer]) := by
  have hg2 : Patch.get p1 output_feature = some layer := by
    unfold Patch.getItem at hg
    cases hv : Patch.get p1 output_feature with
    | none => rw [hv] at hg; cases hg
    | some v => rw [hv] at hg; cases hg; rfl
  exact run_success env p0 t p1 layer hl hm hx hg2

/-- C1 witness: the concrete environment `envC` plots layer 4, the output
layer of the executed container. -/
theorem C1_witness :
    run envC = (.ok (), [Call.load sample_path true,
      Call.construct output_feature data_feature mask_feature,
      Call.execute taskC samplePatch, Call.plot 4]) :=
  C1_plot_uses_executed_container envC samplePatch execPatchC taskC 4 rfl rfl rfl rfl

/-- C2: with the task modelled from the spec, the script reads only the two
input keys and writes only the output key: every other layer is unchanged,
the output layer is the computation on the two input layers, the written
layer depends only on the two input layers, and no run makes a save
(persistence) call. -/
theorem C2_frame_effect {γ π : Type} (f : γ → γ → γ) (p0 p1 : Patch γ)
    (hx : ReactivTask.executeModel f ⟨output_feature, data_feature, mask_feature⟩ p0
      = .ok p1) :
    (∀ k, k ≠ output_feature → Patch.get p1 k = Patch.get p0 k) ∧
    (∀ d m, Patch.get p0 data_feature = some d →
      Patch.get p0 mask_feature = some m →
      Patch.get p1 output_feature = some (f d m)) ∧
    (∀ q0 : Patch γ,
      Patch.get q0 data_feature = Patch.get p0 data_feature →
      Patch.get q0 mask_feature = Patch.get p0 mask_feature →
      Except.map (fun q1 => Patch.get q1 output_feature)
        (ReactivTask.executeModel f ⟨output_feature, data_feature, mask_feature⟩ q0)
        = .ok (Patch.get p1 output_feature)) ∧
    (∀ env : Env γ π, ∀ q s, Call.save q s ∉ (run env).2) := by
  obtain ⟨d, m, hd, hm, hp1⟩ :=
    executeModel_ok f ⟨output_feature, data_feature, mask_feature⟩ p0 p1 hx
  subst hp1
  refine ⟨?_, ?_, ?_, fun env q s => run_no_save env q s⟩
  · intro k hk
    rw [Patch.get_set, if_neg (fun h => hk h.symm)]
  · intro d2 m2 hd2 hm2
    rw [hd] at hd2
    rw [hm] at hm2
    cases hd2
    cases hm2
    rw [Patch.get_set, if_pos rfl]
  · intro q0 hq1 hq2
    rw [hd] at hq1
    rw [hm] at hq2
    simp [ReactivTask.executeModel, hq1, hq2, hd, hm, Patch.get_set, Except.map]

/-- C2 witness: in the concrete run, the mask layer is untouched and the
output layer holds the computed value 3 + 1. -/
theorem C2_witness :
    Patch.get execPatchC mask_feature = Patch.get samplePatch mask_feature ∧
    Patch.get execPatchC output_feature = some 4 :=
  ⟨(C2_frame_effect (γ := Nat) (π := Unit) (fun a b => a + b) samplePatch execPatchC
      rfl).1 mask_feature (by decide),
   (C2_frame_effect (γ := Nat) (π := Unit) (fun a b => a + b) samplePatch execPatchC
      rfl).2.1 3 1 rfl rfl⟩

/-- C3: any construct call appearing in any run's trace carries exactly the
output key (DATA_TIMELESS, "speckle_variability") and the two input keys
(DATA, "IW_VV") and (MASK, "IS_DATA"), and at most one construct call occurs
per run. -/
theorem C3_task_configuration {γ π : Type} (env : Env γ π) (o d m : FeatureKey)
    (h : Call.construct o d m ∈ (run env).2) :
    o = output_feature ∧ d = data_feature ∧ m = mask_feature ∧
    ((run env).2.map Call.kind).count CallKind.constructK ≤ 1 := by
  rcases run_trace_cases env with ht | ht | ⟨t, p, ht⟩ | ⟨t, p, layer, ht⟩ <;>
    rw [ht] at h ⊢ <;> simp at h <;>
    obtain ⟨h1, h2, h3⟩ := h <;>
    exact ⟨h1, h2, h3, by simp only [List.map_cons, List.map_nil, Call.kind]; decide⟩

/-- C3 witness: the concrete run's construct call carries exactly the three
configured keys. -/
theorem C3_witness :
    output_feature = output_feature ∧ data_feature = data_feature ∧
    mask_feature = mask_feature ∧
    ((run envC).2.map Call.kind).count CallKind.constructK ≤ 1 :=
  C3_task_configuration envC output_feature data_feature mask_feature (by decide)

/-- C4 counterexample: the claim says every run performs exactly four
operations, but in the concrete run whose load call fails the script performs
exactly one operation, not four. -/
theorem C4_counterexample :
    (run envLoadFail).2.length = 1 ∧ ¬ (run envLoadFail).2.length = 4 := by
  decide

/-- C4 (amended): the operations any run attempts are a prefix of the fixed
sequence load, construct, execute, plot — so the order of calls is
independent of the data — and a run in which every call succeeds performs
exactly the four operations, each once, in that order. -/
theorem C4_fixed_call_sequence {γ π : Type} (env : Env γ π) :
    (run env).2.map Call.kind ∈
      [[CallKind.loadK],
       [CallKind.loadK, CallKind.constructK],
       [CallKind.loadK, CallKind.constructK, CallKind.executeK],
       [CallKind.loadK, CallKind.constructK, CallKind.executeK, CallKind.plotK]] ∧
    (∀ x : π, (run env).1 = .ok x →
      (run env).2.map Call.kind =
        [CallKind.loadK, CallKind.constructK, CallKind.executeK, CallKind.plotK]) := by
  cases hl : env.load sample_path true with
  | error e =>
      exact ⟨by simp [run, hl, Call.kind], fun x hok => by simp [run, hl] at hok⟩
  | ok p0 =>
    cases hm : env.mkReactivTask output_feature data_feature mask_feature with
    | error e =>
        exact ⟨by simp [run, hl, hm, Call.kind],
               fun x hok => by simp [run, hl, hm] at hok⟩
    | ok t =>
      cases hx : env.execute t p0 with
      | error e =>
          exact ⟨by simp [run, hl, hm, hx, Call.kind],
                 fun x hok => by simp [run, hl, hm, hx] at hok⟩
      | ok p1 =>
        cases hg : Patch.getItem p1 output_feature with
        | error e =>
            exact ⟨by simp [run, hl, hm, hx, hg, Call.kind],
                   fun x hok => by simp [run, hl, hm, hx, hg] at hok⟩
        | ok layer =>
            exact ⟨by simp [run, hl, hm, hx, hg, Call.kind],
                   fun x _ => by simp [run, hl, hm, hx, hg, Call.kind]⟩

/-- C4 witness: the fully successful concrete run performs the four
operations in the fixed order. -/
theorem C4_witness :
    (run envC).2.map Call.kind =
      [CallKind.loadK, CallKind.constructK, CallKind.executeK, CallKind.plotK] :=
  (C4_fixed_call_sequence envC).2 () rfl

/-- C5: a failing external call ends the run with that same error, unmodified,
and no later call is made — stated for each of the five failure points: the
load call, the task constructor, the execute call, the subscript lookup
(missing output key) and the plot call. -/
theorem C5_error_propagation {γ π : Type} (env : Env γ π) :
    (∀ e, env.load sample_path true = .error e →
      run env = (.error e, [Call.load sample_path true])) ∧
    (∀ p0 e, env.load sample_path true = .ok p0 →
      env.mkReactivTask output_feature data_feature mask_feature = .error e →
      run env = (.error e, [Call.load sample_path true,
        Call.construct output_feature data_feature mask_feature])) ∧
    (∀ p0 t e, env.load sample_path true = .ok p0 →
      env.mkReactivTask output_feature data_feature mask_feature = .ok t →
      env.execute t p0 = .error e →
      run env = (.error e, [Call.load sample_path true,
        Call.construct output_feature data_feature mask_feature,
        Call.execute t p0])) ∧
    (∀ p0 t p1, env.load sample_path true = .ok p0 →
      env.mkReactivTask output_feature data_feature mask_feature = .ok t →
      env.execute t p0 = .ok p1 →
      Patch.get p1 output_feature = none →
      run env = (.error (.keyError output_feature), [Call.load sample_path true,
        Call.construct output_feature data_feature mask_feature,
        Call.execute t p0])) ∧
    (∀ p0 t p1 layer e, env.load sample_path true = .ok p0 →
      env.mkReactivTask output_feature data_feature mask_feature = .ok t →
      env.execute t p0 = .ok p1 →
      Patch.get p1 output_feature = some layer →
      env.plot_results layer = .error e →
      run env = (.error e, [Call.load sample_path true,
        Call.construct output_feature data_feature mask_feature,
        Call.execute t p0, Call.plot layer])) := by
  refine ⟨?_, ?_, ?_, ?_, ?_⟩
  · intro e h; simp [run, h]
  · intro p0 e h1 h2; simp [run, h1, h2]
  · intro p0 t e h1 h2 h3; simp [run, h1, h2, h3]
  · intro p0 t p1 h1 h2 h3 h4; simp [run, h1, h2, h3, Patch.getItem, h4]
  · intro p0 t p1 layer e h1 h2 h3 h4 h5
    simp [run, h1, h2, h3, Patch.getItem, h4, h5]

/-- C5 witness: each of the five failure points, exercised on a concrete
environment failing exactly there: the error comes out unmodified and the
trace stops at the failing call. -/
theorem C5_witness :
    run envLoadFail = (.error (.ioError "missing path"),
      [Call.load sample_path true]) ∧
    run envMkFail = (.error (.libError "bad task"),
      [Call.load sample_path true,
       Call.construct output_feature data_feature mask_feature]) ∧
    run envExecFail = (.error (.libError "exec failed"),
      [Call.load sample_path true,
       Call.construct output_feature data_feature mask_feature,
       Call.execute taskC samplePatch]) ∧
    run envKeyFail = (.error (.keyError output_feature),
      [Call.load sample_path true,
       Call.construct output_feature data_feature mask_feature,
       Call.execute taskC samplePatch]) ∧
    run envPlotFail = (.error (.libError "plot failed"),
      [Call.load sample_path true,
       Call.construct output_feature data_feature mask_feature,
       Call.execute taskC samplePatch, Call.plot 4]) :=
  ⟨(C5_error_propagation envLoadFail).1 (.ioError "missing path") rfl,
   (C5_error_propagation envMkFail).2.1 samplePatch (.libError "bad task") rfl rfl,
   (C5_error_propagation envExecFail).2.2.1 samplePatch taskC
     (.libError "exec failed") rfl rfl rfl,
   (C5_error_propagation envKeyFail).2.2.2.1 samplePatch taskC samplePatch
     rfl rfl rfl rfl,
   (C5_error_propagation envPlotFail).2.2.2.2 samplePatch taskC execPatchC 4
     (.libError "plot failed") rfl rfl rfl rfl rfl⟩

/-- C6: the first operation of every run is the load call with the directory
path "../data/sentinel1_sample" and the lazy-loading flag true, and the
container it returns is the one handed to the execute call. -/
theorem C6_load_first {γ π : Type} (env : Env γ π) :
    (∃ rest, (run env).2 = Call.load sample_path true :: rest) ∧
    (∀ p0 t, env.load sample_path true = .ok p0 →
      env.mkReactivTask output_feature data_feature mask_feature = .ok t →
      ((run env).2.drop 2).head? = some (Call.execute t p0)) := by
  constructor
  · rcases run_trace_cases env with ht | ht | ⟨t, p, ht⟩ | ⟨t, p, layer, ht⟩ <;>
      exact ⟨_, ht⟩
  · intro p0 t h1 h2
    cases hx : env.execute t p0 with
    | error e => simp [run, h1, h2, hx]
    | ok p1 =>
      cases hg : Patch.getItem p1 output_feature with
      | error e => simp [run, h1, h2, hx, hg]
      | ok layer => simp [run, h1, h2, hx, hg]

/-- C6 witness: the concrete run's third call executes the task on exactly the
container the load call returned. -/
theorem C6_witness :
    ((run envC).2.drop 2).head? = some (Call.execute taskC samplePatch) :=
  (C6_load_first envC).2 samplePatch taskC rfl rfl

/-- C7: the script is deterministic: two environments whose four library
functions agree pointwise produce the same result and the same sequence of
calls. -/
theorem C7_deterministic {γ π : Type} (env1 env2 : Env γ π)
    (hl : ∀ s b, env1.load s b = env2.load s b)
    (hm : ∀ o d m, env1.mkReactivTask o d m = env2.mkReactivTask o d m)
    (hx : ∀ t p, env1.execute t p = env2.execute t p)
    (hp : ∀ l, env1.plot_results l = env2.plot_results l) :
    run env1 = run env2 := by
  simp only [run, hl, hm, hx, hp]

/-- A syntactically different presentation of `envC` with the same pointwise
behavior, for the determinism witness. -/
def envC2 : Env Nat Unit :=
  ⟨fun _ _ => .ok ([(data_feature, 3)] ++ [(mask_feature, 1)]),
   fun o d m => .ok ⟨o, d, m⟩,
   ReactivTask.executeModel (fun a b => a + b),
   fun _ => .ok ()⟩

/-- C7 witness: two pointwise-equal concrete environments give identical
runs. -/
theorem C7_witness : run envC = run envC2 :=
  C7_deterministic envC envC2 (fun _ _ => rfl) (fun _ _ _ => rfl) (fun _ _ => rfl)
    (fun _ => rfl)

/-- A raw environment in which only the `EOPatch` binding is missing. -/
def rawEnvNoEOPatch : RawEnv Nat Unit :=
  ⟨none, true, some fun o d m => .ok ⟨o, d, m⟩,
   ReactivTask.executeModel (fun a b => a + b), some fun _ => .ok ()⟩

/-- A raw environment in which only the `ReactivTask` binding is missing. -/
def rawEnvNoReactiv : RawEnv Nat Unit :=
  ⟨some fun _ _ => .ok samplePatch, true, none,
   ReactivTask.executeModel (fun a b => a + b), some fun _ => .ok ()⟩

/-- A raw environment in which only the `FeatureType` binding is missing. -/
def rawEnvNoFeatureType : RawEnv Nat Unit :=
  ⟨some fun _ _ => .ok samplePatch, false, some fun o d m => .ok ⟨o, d, m⟩,
   ReactivTask.executeModel (fun a b => a + b), some fun _ => .ok ()⟩

/-- A raw environment in which only the `plot_results` binding is missing. -/
def rawEnvNoPlot : RawEnv Nat Unit :=
  ⟨some fun _ _ => .ok samplePatch, true, some fun o d m => .ok ⟨o, d, m⟩,
   ReactivTask.executeModel (fun a b => a + b), none⟩

/-- C8 counterexample: with only the `plot_results` binding missing, the run
fails with the NameError for `plot_results` at its first reference (line 13),
after the load, construct and execute calls have already happened — so the
failure is not at line 2 and not before filesystem access or library work,
contrary to the claim's parenthetical. -/
theorem C8_counterexample :
    runRaw rawEnvNoPlot = (.error (.nameError "plot_results"),
      [Call.load sample_path true,
       Call.construct output_feature data_feature mask_feature,
       Call.execute taskC samplePatch]) ∧
    (runRaw rawEnvNoPlot).2 ≠ [] := by
  refine ⟨rfl, ?_⟩
  decide

/-- C8 (amended): every run requires the enclosing environment to supply the
four bindings `EOPatch`, `FeatureType`, `ReactivTask` and `plot_results`; if
one is missing, the script fails with a NameError for the first missing name
referenced, making no further external calls: a missing `EOPatch` fails at
line 2 with no calls made (before any filesystem access), a missing
`ReactivTask` or `FeatureType` fails at line 5 after only the load call, and
a missing `plot_results` fails at line 13 after the load, construct and
execute calls. -/
theorem C8_name_resolution {γ π : Type} (renv : RawEnv γ π) :
    (renv.eopatchBinding = none →
      runRaw renv = (.error (.nameError "EOPatch"), [])) ∧
    (∀ lf p0, renv.eopatchBinding = some lf → lf sample_path true = .ok p0 →
      renv.reactivTaskBinding = none →
      runRaw renv = (.error (.nameError "ReactivTask"),
        [Call.load sample_path true])) ∧
    (∀ lf p0 ctor, renv.eopatchBinding = some lf → lf sample_path true = .ok p0 →
      renv.reactivTaskBinding = some ctor → renv.featureTypeBound = false →
      runRaw renv = (.error (.nameError "FeatureType"),
        [Call.load sample_path true])) ∧
    (∀ lf p0 ctor t p1, renv.eopatchBinding = some lf →
      lf sample_path true = .ok p0 →
      renv.reactivTaskBinding = some ctor →
      renv.featureTypeBound = true →
      ctor output_feature data_feature mask_feature = .ok t →
      renv.executeMethod t p0 = .ok p1 →
      renv.plotResultsBinding = none →
      runRaw renv = (.error (.nameError "plot_results"),
        [Call.load sample_path true,
         Call.construct output_feature data_feature mask_feature,
         Call.execute t p0])) := by
  refine ⟨?_, ?_, ?_, ?_⟩
  · intro h; simp [runRaw, h]
  · intro lf p0 h1 h2 h3; simp [runRaw, h1, h2, h3]
  · intro lf p0 ctor h1 h2 h3 h4; simp [runRaw, h1, h2, h3, h4]
  · intro lf p0 ctor t p1 h1 h2 h3 h4 h5 h6 h7
    simp [runRaw, h1, h2, h3, h4, h5, h6, h7]

/-- C8 witness: each of the four bindings missing in turn, on concrete raw
environments: the failure is a NameError for that name at its first
reference, with exactly the calls before that reference in the trace. -/
theorem C8_witness :
    runRaw rawEnvNoEOPatch = (.error (.nameError "EOPatch"), []) ∧
    runRaw rawEnvNoReactiv = (.error (.nameError "ReactivTask"),
      [Call.load sample_path true]) ∧
    runRaw rawEnvNoFeatureType = (.error (.nameError "FeatureType"),
      [Call.load sample_path true]) ∧
    runRaw rawEnvNoPlot = (.error (.nameError "plot_results"),
      [Call.load sample_path true,
       Call.construct output_feature data_feature mask_feature,
       Call.execute taskC samplePatch]) :=
  ⟨(C8_name_resolution rawEnvNoEOPatch).1 rfl,
   (C8_name_resolution rawEnvNoReactiv).2.1 _ samplePatch rfl rfl rfl,
   (C8_name_resolution rawEnvNoFeatureType).2.2.1 _ samplePatch _ rfl rfl rfl rfl,
   (C8_name_resolution rawEnvNoPlot).2.2.2 _ samplePatch _ taskC execPatchC
     rfl rfl rfl rfl rfl rfl rfl⟩

/-- C9: if the task constructor records its output-key argument and the
execute method adds its configured output key to the container it returns,
then whenever the run gets past the execute call the subscript lookup of
line 13 succeeds — the missing-key branch is unreachable — because the key
looked up is the same `output_feature` the task was configured with on
line 5. -/
theorem C9_lookup_always_succeeds {γ π : Type} (env : Env γ π)
    (hmk : ∀ o d m t, env.mkReactivTask o d m = .ok t → t.output_feature = o)
    (hexec : ∀ t p p1, env.execute t p = .ok p1 →
      (Patch.get p1 t.output_feature).isSome = true)
    (p0 : Patch γ) (t : ReactivTask) (p1 : Patch γ)
    (hl : env.load sample_path true = .ok p0)
    (hm : env.mkReactivTask output_feature data_feature mask_feature = .ok t)
    (hx : env.execute t p0 = .ok p1) :
    ∃ layer, Patch.getItem p1 output_feature = .ok layer ∧
      run env = (env.plot_results layer,
        [Call.load sample_path true,
         Call.construct output_feature data_feature mask_feature,
         Call.execute t p0, Call.plot layer]) := by
  have hout : t.output_feature = output_feature := hmk _ _ _ _ hm
  have hsome := hexec t p0 p1 hx
  rw [hout] at hsome
  cases hv : Patch.get p1 output_feature with
  | none => rw [hv] at hsome; simp at hsome
  | some layer =>
      refine ⟨layer, ?_, run_success env p0 t p1 layer hl hm hx hv⟩
      simp [Patch.getItem, hv]

/-- C9 witness: on the concrete environment whose execute follows the
modelled task semantics, the final lookup succeeds with layer 4. -/
theorem C9_witness :
    ∃ layer, Patch.getItem execPatchC output_feature = .ok layer ∧
      run envC = (envC.plot_results layer,
        [Call.load sample_path true,
         Call.construct output_feature data_feature mask_feature,
         Call.execute taskC samplePatch, Call.plot layer]) :=
  C9_lookup_always_succeeds envC
    (fun o d m t h => by injection h with h2; rw [← h2])
    (fun t p p1 h => executeModel_output (fun a b => a + b) t p p1 h)
    samplePatch taskC execPatchC rfl rfl rfl

/-- C10: the script is a total straight-line function: every run yields a
result and makes at most four external calls. -/
theorem C10_total_bounded {γ π : Type} (env : Env γ π) :
    ∃ result trace, run env = (result, trace) ∧ trace.length ≤ 4 := by
  refine ⟨(run env).1, (run env).2, rfl, ?_⟩
  rcases run_trace_cases env with ht | ht | ⟨t, p, ht⟩ | ⟨t, p, layer, ht⟩ <;>
    rw [ht] <;> simp

end Sentinel1
